import Mathlib

/-!
Verification of the command-translation engine of `typecheck_runner.py`
(package `typecheck-runner`): version/executable resolution, checker-flag
mapping, launcher-mode command parsing, and the exit-code aggregation loop
of `main`.

Modelling conventions:
* paths are `PyPath` values (POSIX-style: an absoluteness flag plus a list
  of components), mirroring `pathlib.Path`;
* the external probes the resolver reads — environment variables, the
  filesystem, the running interpreter, and the subprocess that introspects
  an interpreter's version — are an explicit `Env` record of oracles;
* fallible Python functions (ones that `raise ValueError`) return
  `Except String _`;
* shell tokenisation (`shlex.split`) and requirement parsing
  (`packaging.requirements.Requirement`) are external collaborators: the
  parser model receives the already-split first token and remaining tokens,
  and a `req_name` oracle standing for `Requirement(command).name`.
-/

namespace TypecheckRunner

/-- POSIX-style model of `pathlib.Path`: whether the path is absolute, and
its components. -/
structure PyPath where
  isAbs : Bool
  comps : List String
deriving DecidableEq

/-- String rendering of a path, used in error messages (`str(path)`). -/
def render_path (p : PyPath) : String :=
  (if p.isAbs then "/" else "") ++ String.intercalate "/" p.comps

/-- External state read by the resolver: environment variables, filesystem
probes, platform, the running interpreter, and interpreter introspection.
`getenv v = none` models `os.getenv(v, "")` returning the falsy `""`
(variable unset or empty); `some p` models a non-empty value parsed as a
path.  `introspect e` is the stripped stdout of running
`[e, "-c", "import sys; ...print(f'{info.major}.{info.minor}')"]`. -/
structure Env where
  getenv : String → Option PyPath
  is_dir : PyPath → Bool
  path_exists : PyPath → Bool
  cwd : List String
  platform_win : Bool
  sys_executable : PyPath
  sys_version : String
  introspect : PyPath → String

/-- `Path.absolute()`: prepend the working directory when the path is not
already absolute. -/
def path_absolute (env : Env) (p : PyPath) : PyPath :=
  if p.isAbs then p else ⟨true, env.cwd ++ p.comps⟩

/-- `location / component` (path join by one component). -/
def joinp (p : PyPath) (c : String) : PyPath :=
  ⟨p.isAbs, p.comps ++ [c]⟩

/-- `_infer_venv_location`: probe `VIRTUAL_ENV` then `CONDA_PREFIX`, then
the `.venv` directory in the working directory; raise `ValueError`
otherwise. -/
def infer_venv_location (env : Env) : Except String PyPath :=
  match env.getenv "VIRTUAL_ENV" with
  | some venv => .ok (path_absolute env venv)
  | none =>
    match env.getenv "CONDA_PREFIX" with
    | some venv => .ok (path_absolute env venv)
    | none =>
      if env.is_dir ⟨false, [".venv"]⟩ then
        .ok (path_absolute env ⟨false, [".venv"]⟩)
      else
        .error "Could not infer virtual environment"

/-- `_get_python_executable_from_venv`: look for the platform's interpreter
name under `bin` then `Scripts`; raise `ValueError` if neither exists. -/
def get_python_executable_from_venv (env : Env) (location : PyPath) :
    Except String PyPath :=
  let executable := if env.platform_win then "python.exe" else "python"
  let p₁ := joinp (joinp location "bin") executable
  let p₂ := joinp (joinp location "Scripts") executable
  if env.path_exists p₁ then .ok (path_absolute env p₁)
  else if env.path_exists p₂ then .ok (path_absolute env p₂)
  else .error ("No virtual environment found under " ++ render_path location)

/-- `_get_python_executable`: infer the venv when none is given and
`infer_venv` is set; when a venv is (now) known resolve its interpreter;
otherwise pass the explicit executable through. -/
def get_python_executable (env : Env) (python_executable : Option PyPath)
    (venv : Option PyPath) (infer_venv : Bool) :
    Except String (Option PyPath) :=
  match (if venv = none ∧ infer_venv
         then Except.map some (infer_venv_location env)
         else .ok venv) with
  | .error e => .error e
  | .ok (some v) => Except.map some (get_python_executable_from_venv env v)
  | .ok none => .ok python_executable

/-- `_get_python_values`: fill in the version (introspecting the executable
when one is known, else the running interpreter's `major.minor`) unless
suppressed, then fill in the executable from `sys.executable` unless
suppressed. -/
def get_python_values (env : Env) (python_version : Option String)
    (python_executable : Option PyPath)
    (no_python_version : Bool) (no_python_executable : Bool) :
    Option String × Option PyPath :=
  let python_version :=
    if python_version = none ∧ ¬no_python_version then
      match python_executable with
      | some e => some (env.introspect e)
      | none => some env.sys_version
    else python_version
  let python_executable :=
    if python_executable = none ∧ ¬no_python_executable then
      some env.sys_executable
    else python_executable
  (python_version, python_executable)

/-- The resolution step of `main` (lines 382–390): `_get_python_executable`
composed into `_get_python_values`. -/
def main_python_values (env : Env) (python_version : Option String)
    (python_executable : Option PyPath) (venv : Option PyPath)
    (infer_venv no_python_version no_python_executable : Bool) :
    Except String (Option String × Option PyPath) :=
  match get_python_executable env python_executable venv infer_venv with
  | .error e => .error e
  | .ok exe =>
      .ok (get_python_values env python_version exe
        no_python_version no_python_executable)

/-- `PYRIGHT_LIKE_CHECKERS` from the source. -/
def PYRIGHT_LIKE_CHECKERS : List String := ["pyright", "basedpyright"]

/-- `_get_python_flags`: emit the checker-specific version flag when a
version is present, then the checker-specific executable flag when an
executable is present; raise `ValueError` for an unknown checker in the
executable branch. -/
def get_python_flags (checker : String) (python_version : Option String)
    (python_executable : Option String) : Except String (List String) :=
  let out : List String :=
    match python_version with
    | none => []
    | some v =>
        let version_flag :=
          if checker ∈ PYRIGHT_LIKE_CHECKERS then "pythonversion"
          else "python-version"
        ["--" ++ version_flag ++ "=" ++ v]
  match python_executable with
  | none => .ok out
  | some e =>
      let python_flag : Except String String :=
        if checker ∈ PYRIGHT_LIKE_CHECKERS then .ok "pythonpath"
        else if checker = "ty" then .ok "python"
        else if checker = "pyrefly" then .ok "python-interpreter-path"
        else if checker = "mypy" then .ok "python-executable"
        else .error ("Unknown checker " ++ checker)
      Except.map (fun f => out ++ ["--" ++ f ++ "=" ++ e]) python_flag

/-- `_maybe_add_check_argument`: prepend the `check` subcommand for `ty`
and `pyrefly` when the arguments do not already contain it. -/
def maybe_add_check_argument (checker : String) (args : List String) :
    List String :=
  if (checker = "ty" ∨ checker = "pyrefly") ∧ "check" ∉ args then
    "check" :: args
  else args

/-- The launcher (`uvx`) branch of `_parse_command` (`no_uvx = False`),
over the already-tokenised command: `command` is the first shell token,
`args` the remaining tokens, and `req_name` stands for
`Requirement(command).name`.  Arguments are split at the first occurrence
of the delimiter (`args.indexOf` returns `args.length` when absent,
matching the Python `args.index(...) if ... else len(args)`). -/
def parse_command_uvx (req_name : String → String)
    (command : String) (args : List String)
    (uvx_delimiter : String) (uvx_options : List String) :
    String × List String :=
  let checker := req_name command
  let idx := args.indexOf uvx_delimiter
  let checker_args := args.take idx
  let uvx_args := args.drop (idx + 1)
  (checker,
    ["uvx"] ++ uvx_options ++ uvx_args ++ [command]
      ++ maybe_add_check_argument checker checker_args)

/-- The `--constraints` flags built in `main` (line 399), one per
constraint file, in order. -/
def constraints_flags (constraints : List String) : List String :=
  constraints.map (fun c => "--constraints=" ++ c)

/-- The `uvx_options` list built in `main` (lines 397–400): the split
`--uvx-options` string followed by the constraint flags. -/
def main_uvx_options (uvx_options_split : List String)
    (constraints : List String) : List String :=
  uvx_options_split ++ constraints_flags constraints

/-- Modelled from the spec: the launcher-mode final argv order stated in
section 4.3 — launcher program, launcher options, after-delimiter
arguments, then the pinned-constraint flags, then the full requirement
token, then the (possibly subcommand-injected) checker arguments. -/
def spec_launcher_argv (launcher_options after_delim_args : List String)
    (constraints : List String) (command : String)
    (checker_args : List String) : List String :=
  ["uvx"] ++ launcher_options ++ after_delim_args
    ++ constraints_flags constraints ++ [command] ++ checker_args

/-- Modelled from the spec, amended to the code's order: launcher program,
launcher options, then the pinned-constraint flags, then the
after-delimiter arguments, then the full requirement token, then the
checker arguments. -/
def spec_launcher_argv_amended
    (launcher_options after_delim_args : List String)
    (constraints : List String) (command : String)
    (checker_args : List String) : List String :=
  ["uvx"] ++ launcher_options ++ constraints_flags constraints
    ++ after_delim_args ++ [command] ++ checker_args

/-- The exit-code aggregation loop of `main` (lines 402–422), abstracted
over the per-checker executor results: `codes` lists, in submission order,
the exit code each checker's `_run_checker` invocation would return, and
`code` is the running accumulator.  Returns the exit status together with
the number of checker invocations actually performed. -/
def dispatch_go (fail_fast allow_errors : Bool) :
    List Int → Int → Int × Nat
  | [], code => (if allow_errors then 0 else code, 0)
  | c :: rest, code =>
      if fail_fast ∧ c ≠ 0 then (c, 1)
      else
        let r := dispatch_go fail_fast allow_errors rest (code + c)
        (r.1, r.2 + 1)

/-- The dispatcher fold of `main`, started with accumulator `0`. -/
def dispatch (codes : List Int) (fail_fast allow_errors : Bool) :
    Int × Nat :=
  dispatch_go fail_fast allow_errors codes 0

/-- Concrete external state: no environment variables, a `.venv` directory
in the working directory `/proj` holding `bin/python` (POSIX layout), the
inferred interpreter reporting version `3.11`. -/
def env_c2 : Env :=
  { getenv := fun _ => none
    is_dir := fun p => decide (p = ⟨false, [".venv"]⟩)
    path_exists := fun p => decide (p = ⟨true, ["proj", ".venv", "bin", "python"]⟩)
    cwd := ["proj"]
    platform_win := false
    sys_executable := ⟨true, ["usr", "bin", "python3"]⟩
    sys_version := "3.12"
    introspect := fun _ => "3.11" }

/-- Concrete external state: no environment variables, a `.venv` directory
in the working directory `/home/proj` holding `bin/python` (POSIX layout),
the inferred interpreter reporting version `3.11`. -/
def env_c8 : Env :=
  { getenv := fun _ => none
    is_dir := fun p => decide (p = ⟨false, [".venv"]⟩)
    path_exists := fun p =>
      decide (p = ⟨true, ["home", "proj", ".venv", "bin", "python"]⟩)
    cwd := ["home", "proj"]
    platform_win := false
    sys_executable := ⟨true, ["usr", "bin", "python3"]⟩
    sys_version := "3.12"
    introspect := fun _ => "3.11" }

/-- C1: with `--allow-errors` and `--fail-fast` both set and a checker
exiting `1`, `main` returns `1` (the fail-fast early return bypasses the
`allow_errors` override), although without fail-fast the status is forced
to `0`; the claim (and the `--allow-errors` help text, "return 0
regardless of checker status") says the status is `0` in both runs. -/
theorem c1_fail_fast_bypasses_allow_errors :
    dispatch [1] true true = (1, 1) ∧ dispatch [1] false true = (0, 1) := by
  decide

/-- C2 counterexample: with the no-python-executable suppression flag set,
no explicit executable, and venv inference enabled, `main`'s resolution
yields the venv-inferred executable `/proj/.venv/bin/python` — a value
produced by inference, not the explicit value (absent) — refuting the
claim that the suppression flag is an absolute opt-out. -/
theorem c2_counterexample :
    main_python_values env_c2 none none none true false true
      = .ok (some "3.11", some ⟨true, ["proj", ".venv", "bin", "python"]⟩)
    ∧ (some (⟨true, ["proj", ".venv", "bin", "python"]⟩ : PyPath)
        ≠ (none : Option PyPath)) := by
  exact ⟨rfl, by simp⟩

/-- C2 (amended): the no-python-version flag is an absolute opt-out — with
it set the resolved version is exactly the explicit value (or absent) —
while the no-python-executable flag only suppresses the `sys.executable`
fallback inside `_get_python_values`: the executable passed in (which may
already be venv-inferred) is returned unchanged. -/
theorem c2_suppression_scope (env : Env) (pv : Option String)
    (pe : Option PyPath) (nv ne : Bool) :
    (get_python_values env pv pe true ne).1 = pv
    ∧ (get_python_values env pv pe nv true).2 = pe := by
  constructor <;> simp [get_python_values]

/-- C3 counterexample: the flag-mapping step does raise for an unknown
identity when an executable value is present, refuting the claim that the
mapping never errors on unknown identities. -/
theorem c3_counterexample :
    get_python_flags "foo" none (some "/x")
      = .error "Unknown checker foo" := by
  rfl

/-- C3 (amended): an unknown identity is legal and yields no special flags
beyond the default version flag as long as no executable value is present;
when an executable value is present the mapping raises the unknown-checker
error. -/
theorem c3_unknown_checker_lenient (checker : String)
    (h : checker ∉ PYRIGHT_LIKE_CHECKERS ∧ checker ≠ "ty"
      ∧ checker ≠ "pyrefly" ∧ checker ≠ "mypy") :
    (get_python_flags checker none none = .ok []
      ∧ ∀ v : String, get_python_flags checker (some v) none
          = .ok ["--python-version=" ++ v])
    ∧ ∀ (pv : Option String) (e : String),
        get_python_flags checker pv (some e)
          = .error ("Unknown checker " ++ checker) := by
  obtain ⟨h1, h2, h3, h4⟩ := h
  refine ⟨⟨rfl, fun v => ?_⟩, fun pv e => ?_⟩
  · simp [get_python_flags, h1]
  · cases pv <;> simp [get_python_flags, h1, h2, h3, h4, Except.map]

theorem c3_unknown_checker_lenient_witness :
    get_python_flags "someotherchecker" (some "3.9") none
      = .ok ["--python-version=" ++ "3.9"] :=
  (c3_unknown_checker_lenient "someotherchecker" (by decide)).1.2 "3.9"

/-- C4 counterexample: with one constraint file `c.txt`, no uvx options,
and raw command `mypy -- --x`, the code's argv places the constraint flag
before the after-delimiter argument `--x`, not after it as the claim
orders the segments. -/
theorem c4_counterexample :
    (parse_command_uvx (fun _ => "mypy") "mypy" ["--", "--x"] "--"
        (main_uvx_options [] ["c.txt"])).2
      = ["uvx", "--constraints=c.txt", "--x", "mypy"]
    ∧ (parse_command_uvx (fun _ => "mypy") "mypy" ["--", "--x"] "--"
        (main_uvx_options [] ["c.txt"])).2
      ≠ spec_launcher_argv [] ["--x"] ["c.txt"] "mypy"
          (maybe_add_check_argument "mypy" []) := by
  decide

/-- C4 (amended): in launcher mode the final argv is launcher program,
launcher options, then one pinned-constraint flag per constraint file,
then the after-delimiter launcher arguments, then the original full
requirement-specifier token, then the (possibly subcommand-injected)
checker arguments — the constraint flags appear before the after-delimiter
arguments. -/
theorem c4_launcher_argv_order (req_name : String → String)
    (command : String) (args : List String) (uvx_delimiter : String)
    (uvx_options_split : List String) (constraints : List String) :
    (parse_command_uvx req_name command args uvx_delimiter
        (main_uvx_options uvx_options_split constraints)).2
      = spec_launcher_argv_amended uvx_options_split
          (args.drop (args.indexOf uvx_delimiter + 1)) constraints command
          (maybe_add_check_argument (req_name command)
            (args.take (args.indexOf uvx_delimiter))) := by
  simp [parse_command_uvx, spec_launcher_argv_amended, main_uvx_options]

/-- C5: with fail-fast set and the first of two checkers exiting `1`, the
dispatcher returns `1` immediately and performs exactly one executor
invocation — the second checker's executor is never invoked. -/
theorem c5_fail_fast_short_circuit (c₂ : Int) (allow_errors : Bool) :
    dispatch [1, c₂] true allow_errors = (1, 1) := by
  simp [dispatch, dispatch_go]

/-- C6: with three checkers exiting `0`, `2`, `3` and neither fail-fast
nor allow-errors set, the dispatcher performs all three invocations and
returns the arithmetic sum `5`. -/
theorem c6_sum_fold : dispatch [0, 2, 3] false false = (5, 3) := by
  decide

/-- C7: for every identity in the fixed mapping table and every optional
version/executable pair, the mapping succeeds and emits the version flag
iff a version is present and the executable flag iff an executable is
present, version flag first, each a single `--name=value` token; with both
absent the result is the empty list. -/
theorem c7_flag_emission (checker : String)
    (h : checker ∈ ["mypy", "pyright", "basedpyright", "ty", "pyrefly"])
    (pv pe : Option String) :
    ∃ vname ename : String,
      get_python_flags checker pv pe
        = .ok ((pv.map (fun v => "--" ++ vname ++ "=" ++ v)).toList
            ++ (pe.map (fun e => "--" ++ ename ++ "=" ++ e)).toList) := by
  fin_cases h <;> cases pv <;> cases pe <;>
    first
      | exact ⟨"python-version", "python-executable", rfl⟩
      | exact ⟨"pythonversion", "pythonpath", rfl⟩
      | exact ⟨"python-version", "python", rfl⟩
      | exact ⟨"python-version", "python-interpreter-path", rfl⟩

theorem c7_flag_emission_witness :
    ∃ vname ename : String,
      get_python_flags "ty" (some "3.9") (some "/x")
        = .ok (((some "3.9").map (fun v => "--" ++ vname ++ "=" ++ v)).toList
            ++ (((some "/x").map (fun e => "--" ++ ename ++ "=" ++ e)).toList)) :=
  c7_flag_emission "ty" (by decide) (some "3.9") (some "/x")

/-- C8: with `VIRTUAL_ENV` and `CONDA_PREFIX` unset, a `.venv` directory
containing `bin/python` in the working directory (POSIX layout), no
explicit venv and venv inference enabled, resolution yields the absolute
executable `<cwd>/.venv/bin/python`, and with version inference not
suppressed the version is the string obtained by introspecting that
interpreter. -/
theorem c8_venv_discovery (env : Env)
    (h1 : env.getenv "VIRTUAL_ENV" = none)
    (h2 : env.getenv "CONDA_PREFIX" = none)
    (h3 : env.is_dir ⟨false, [".venv"]⟩ = true)
    (h4 : env.platform_win = false)
    (h5 : env.path_exists ⟨true, env.cwd ++ [".venv", "bin", "python"]⟩
      = true) :
    main_python_values env none none none true false false
      = .ok
          (some (env.introspect ⟨true, env.cwd ++ [".venv", "bin", "python"]⟩),
           some (⟨true, env.cwd ++ [".venv", "bin", "python"]⟩ : PyPath)) := by
  simp [main_python_values, get_python_executable, infer_venv_location,
    get_python_executable_from_venv, path_absolute, joinp,
    get_python_values, h1, h2, h3, h4, h5, Except.map]

theorem c8_venv_discovery_witness :
    main_python_values env_c8 none none none true false false
      = .ok
          (some (env_c8.introspect
            ⟨true, env_c8.cwd ++ [".venv", "bin", "python"]⟩),
           some (⟨true, env_c8.cwd ++ [".venv", "bin", "python"]⟩ : PyPath)) :=
  c8_venv_discovery env_c8 rfl rfl (by decide) rfl (by decide)

/-- C9: subcommand injection is idempotent — an argument list already
containing the literal token `check` is returned unchanged for every
identity, applying the step twice equals applying it once, and in
particular `["check", "-a"]` is unchanged for `ty` and `pyrefly`. -/
theorem c9_subcommand_idempotent :
    (∀ (checker : String) (args : List String), "check" ∈ args →
      maybe_add_check_argument checker args = args)
    ∧ (∀ (checker : String) (args : List String),
        maybe_add_check_argument checker (maybe_add_check_argument checker args)
          = maybe_add_check_argument checker args)
    ∧ maybe_add_check_argument "ty" ["check", "-a"] = ["check", "-a"]
    ∧ maybe_add_check_argument "pyrefly" ["check", "-a"] = ["check", "-a"] := by
  refine ⟨fun checker args h => ?_, fun checker args => ?_, by decide, by decide⟩
  · simp [maybe_add_check_argument, h]
  · by_cases hc : (checker = "ty" ∨ checker = "pyrefly") ∧ "check" ∉ args
    · have h1 : maybe_add_check_argument checker args = "check" :: args := by
        simp [maybe_add_check_argument, hc]
      rw [h1]
      simp [maybe_add_check_argument]
    · simp [maybe_add_check_argument, hc]

theorem c9_subcommand_idempotent_witness :
    maybe_add_check_argument "ty" ["check", "-a"] = ["check", "-a"] :=
  c9_subcommand_idempotent.1 "ty" ["check", "-a"] (by decide)

/-- C10: the flag mapping fails for an identity outside the recognized set
only when an executable value must be emitted — with a present version and
absent executable the result is exactly the single default version flag,
and any error implies the executable value was present. -/
theorem c10_unknown_error_needs_executable (checker : String)
    (h : checker ∉ PYRIGHT_LIKE_CHECKERS ∧ checker ≠ "ty"
      ∧ checker ≠ "pyrefly" ∧ checker ≠ "mypy") :
    (∀ v : String, get_python_flags checker (some v) none
        = .ok ["--python-version=" ++ v])
    ∧ ∀ (pv pe : Option String) (msg : String),
        get_python_flags checker pv pe = .error msg → pe.isSome := by
  obtain ⟨h1, _, _, _⟩ := h
  refine ⟨fun v => ?_, fun pv pe msg hmsg => ?_⟩
  · simp [get_python_flags, h1]
  · cases pe with
    | some e => rfl
    | none => cases pv <;> simp [get_python_flags] at hmsg

theorem c10_unknown_error_needs_executable_witness :
    get_python_flags "someother" (some "3.10") none
      = .ok ["--python-version=" ++ "3.10"] :=
  (c10_unknown_error_needs_executable "someother" (by decide)).1 "3.10"

end TypecheckRunner
